import Mathlib

/-!
Verification of the disaster-app backend authentication core.

This file shallowly embeds the Python source of the backend service
(src/backend/app/auth.py, src/backend/app/database.py and
src/backend/app/main.py) in Lean 4 and proves the specified properties
about it.

Modelling conventions:
- The process-wide in-memory user store (a Python dict keyed by user id,
  insertion ordered) is an insertion-ordered association list
  `List (String × StoredUser)`; state is passed explicitly.
- Time is an integer count of seconds (unix timestamps), matching the
  integer timestamps that the token library works with.
- The JWT library (python-jose, external to the repository) is modelled
  as an ideal signed-token scheme: a token is a payload together with a
  signature, and the signature produced with key k over payload p is the
  pair (k, p), so signatures made with distinct keys or over distinct
  payloads never collide.  Decoding checks the signature and the expiry
  exactly as jose does: a token is expired if and only if its exp claim
  is strictly below the current time.
- The password hasher (passlib bcrypt, external to the repository) is
  modelled as an ideal deterministic hash whose verify routine succeeds
  exactly on the matching plaintext.
- The LaunchDarkly flag client (external) is an opaque boolean oracle
  `FlagOracle`, a function from flag name and evaluation context to Bool.
- The handlers `signup` and `login` additionally return the list of
  observable events they perform (flag evaluations, telemetry tracking,
  password-verification calls), in order, so that ordering and
  "never invoked" statements can be expressed.
-/

namespace DisasterApp

/-- A stored user record: the value kept in `users_db` in
src/backend/app/database.py (the id is the dict key, held alongside). -/
structure StoredUser where
  email : String
  hashed_password : String
  fullName : Option String
  username : Option String
  website : Option String
deriving DecidableEq

/-- The in-memory user store `users_db`: a Python dict keyed by user id,
modelled as an insertion-ordered association list. -/
abbrev UsersDb := List (String × StoredUser)

/-- Modelled from the spec: the external password hash function (passlib
bcrypt `CryptContext.hash`), a salted one-way hash consumed as an opaque
routine; idealised as a deterministic injective tagging of the plaintext. -/
def pwd_hash (password : String) : String := "bcrypt$" ++ password

/-- `verify_password` from src/backend/app/database.py: delegates to the
hash function of its own verify routine, which succeeds exactly on the
matching plaintext. -/
def verify_password (plain_password hashed_password : String) : Bool :=
  pwd_hash plain_password == hashed_password

/-- `get_user_by_email` from src/backend/app/database.py: linear scan of
the store in insertion order, returning the record together with its id. -/
def get_user_by_email (db : UsersDb) (email : String) : Option (String × StoredUser) :=
  match db with
  | [] => none
  | (uid, u) :: rest =>
    if u.email = email then some (uid, u) else get_user_by_email rest email

/-- Python dict lookup `users_db[user_id]` / `user_id in users_db`. -/
def dbLookup (db : UsersDb) (uid : String) : Option StoredUser :=
  match db with
  | [] => none
  | (k, u) :: rest => if k = uid then some u else dbLookup rest uid

/-- Python dict assignment `users_db[user_id] = u`: replace in place when
the key is present, append otherwise. -/
def dbInsert (db : UsersDb) (uid : String) (u : StoredUser) : UsersDb :=
  match dbLookup db uid with
  | some _ => db.map (fun p => if p.1 = uid then (uid, u) else p)
  | none => db ++ [(uid, u)]

/-- `create_user` from src/backend/app/database.py.  The fresh uuid drawn
by the source is passed in explicitly as `freshId`.  Returns the created
record (with its id) and the updated store. -/
def create_user (db : UsersDb) (email password freshId : String) :
    (String × StoredUser) × UsersDb :=
  let u : StoredUser :=
    { email := email
      hashed_password := pwd_hash password
      fullName := none
      username := none
      website := none }
  ((freshId, u), dbInsert db freshId u)

/-- The keys that can occur in the partial-update dict handed to
`update_user` (the fields of the stored record). -/
inductive UpdKey where
  | kid
  | kemail
  | khashed
  | kfullName
  | kusername
  | kwebsite
deriving DecidableEq

/-- The effect of the Python assignment `users_db[user_id][key] = value`
on a stored record, per key.  (Assigning to the id key would create a
stray dict entry the record model does not track; it is unreachable under
the guard in `update_user`.) -/
def setField (u : StoredUser) (k : UpdKey) (v : String) : StoredUser :=
  match k with
  | .kid => u
  | .kemail => { u with email := v }
  | .khashed => { u with hashed_password := v }
  | .kfullName => { u with fullName := some v }
  | .kusername => { u with username := some v }
  | .kwebsite => { u with website := some v }

/-- One iteration of the update loop of `update_user` in
src/backend/app/database.py: skip null values and the guarded keys id,
email and hashed_password, assign otherwise. -/
def updStep (acc : StoredUser) (kv : UpdKey × Option String) : StoredUser :=
  match kv.2 with
  | none => acc
  | some v =>
    if kv.1 = UpdKey.kid ∨ kv.1 = UpdKey.kemail ∨ kv.1 = UpdKey.khashed then acc
    else setField acc kv.1 v

/-- The update loop of `update_user`: apply each (key, value) pair in
dict order. -/
def applyUpdates (u : StoredUser) (upd : List (UpdKey × Option String)) : StoredUser :=
  upd.foldl updStep u

/-- `update_user` from src/backend/app/database.py: none when the id is
unknown, otherwise the updated record (with its id) and the updated
store. -/
def update_user (db : UsersDb) (uid : String) (upd : List (UpdKey × Option String)) :
    Option ((String × StoredUser) × UsersDb) :=
  match dbLookup db uid with
  | none => none
  | some u =>
    let u2 := applyUpdates u upd
    some ((uid, u2), dbInsert db uid u2)

/-- `SECRET_KEY` from src/backend/app/auth.py. -/
def SECRET_KEY : String := "insecure-demo-secret-key"

/-- `ACCESS_TOKEN_EXPIRE_MINUTES` from src/backend/app/auth.py. -/
def ACCESS_TOKEN_EXPIRE_MINUTES : Int := 30

/-- A JWT claims set as used by this service: the subject claim (absent
when the payload lacks a sub key) and the expiry timestamp. -/
structure JwtPayload where
  sub : Option String
  exp : Int
deriving DecidableEq

/-- An encoded token: payload plus signature.  Modelled from the spec:
the external token library signs with a symmetric key; the signature is
idealised as the pair of the signing key and the signed payload. -/
structure Jwt where
  payload : JwtPayload
  sig : String × JwtPayload
deriving DecidableEq

/-- `jwt.encode(payload, key, algorithm)`: attach the signature made with
`key` over the payload. -/
def jwt_encode (p : JwtPayload) (key : String) : Jwt :=
  { payload := p, sig := (key, p) }

/-- `jwt.decode(token, key, algorithms)`: check the signature and the
expiry; a failure of either raises JWTError, modelled as none.  jose
treats a token as expired exactly when its exp claim is strictly below
the current time. -/
def jwt_decode (t : Jwt) (key : String) (now : Int) : Option JwtPayload :=
  if t.sig = (key, t.payload) then
    if t.payload.exp < now then none else some t.payload
  else
    none

/-- `create_access_token` from src/backend/app/auth.py.  `expires_delta`
is a timedelta in seconds; Python evaluates `expires_delta or default`
with falsy zero, so a zero delta also falls back to the 30-minute
default. -/
def create_access_token (sub : Option String) (expires_delta : Option Int) (now : Int) : Jwt :=
  let delta : Int :=
    match expires_delta with
    | none => ACCESS_TOKEN_EXPIRE_MINUTES * 60
    | some d => if d = 0 then ACCESS_TOKEN_EXPIRE_MINUTES * 60 else d
  jwt_encode { sub := sub, exp := now + delta } SECRET_KEY

/-- `verify_token` from src/backend/app/auth.py: decode with the fixed
key; on any JWTError return none; return the sub claim, or none when it
is absent. -/
def verify_token (t : Jwt) (now : Int) : Option String :=
  match jwt_decode t SECRET_KEY now with
  | none => none
  | some payload => payload.sub

/-- A LaunchDarkly evaluation context as built in src/backend/app/main.py:
either the fixed anonymous context or a user context carrying the user id
(as context key) and email attribute. -/
inductive LDContext where
  | anonymous
  | user (userId email : String)
deriving DecidableEq

/-- Modelled from the spec: the external flag-decision oracle
(`ldclient.get().variation`), an opaque boolean decision service keyed by
flag name and context. -/
abbrev FlagOracle := String → LDContext → Bool

/-- Observable side effects of the handlers, recorded in order: a flag
evaluation, a telemetry track call, or a call to `verify_password`. -/
inductive AuthEvent where
  | flagEval (flag : String) (ctx : LDContext)
  | track (name : String) (ctx : LDContext)
  | passwordVerify (plain hashed : String)
deriving DecidableEq

/-- The success body built by the handlers in src/backend/app/main.py:
a dict literal with exactly the keys id, email, fullName, username and
website (absent optional fields serialize as null). -/
def userResponseDict (id email : String) (fullName username website : Option String) :
    List (String × Option String) :=
  [("id", some id), ("email", some email), ("fullName", fullName),
   ("username", username), ("website", website)]

/-- Outcome of the `signup` handler. -/
inductive SignupResult where
  | conflict
  | injected
  | ok (resp : List (String × Option String))
deriving DecidableEq

/-- HTTP status carried by each signup outcome. -/
def signupStatus : SignupResult → Nat
  | .conflict => 400
  | .injected => 500
  | .ok _ => 200

/-- Outcome of the `login` handler. -/
inductive LoginResult where
  | noSuchUser
  | injected
  | badPassword
  | success (token : Jwt)
deriving DecidableEq

/-- HTTP status carried by each login outcome (both rejections are 401
with the same detail in the source). -/
def loginStatus : LoginResult → Nat
  | .noSuchUser => 401
  | .injected => 500
  | .badPassword => 401
  | .success _ => 200

/-- Outcome of the `get_me` and `update_me` handlers. -/
inductive MeResult where
  | unauthorized
  | notFound
  | ok (resp : List (String × Option String))
deriving DecidableEq

/-- The `signup` handler (src/backend/app/main.py, POST /api/signup):
duplicate-email check, then the two flag evaluations on the anonymous
context, then the demo error or the actual user creation.  Returns the
outcome, the resulting store and the event trace. -/
def signup (flags : FlagOracle) (db : UsersDb) (email password freshId : String) :
    SignupResult × UsersDb × List AuthEvent :=
  match get_user_by_email db email with
  | some _ => (.conflict, db, [])
  | none =>
    let ctx := LDContext.anonymous
    let new_auth := flags "release-new-auth" ctx
    let disaster_mode := flags "enable-disaster-mode" ctx
    let evs := [AuthEvent.flagEval "release-new-auth" ctx,
                AuthEvent.flagEval "enable-disaster-mode" ctx]
    if new_auth || disaster_mode then
      (.injected, db, evs ++ [AuthEvent.track "http.500" ctx])
    else
      let r := create_user db email password freshId
      (.ok (userResponseDict r.1.1 r.1.2.email r.1.2.fullName r.1.2.username r.1.2.website),
       r.2, evs)

/-- The `login` handler (src/backend/app/main.py, POST /api/token):
lookup by email (the form username field), 401 when absent, then the two
flag evaluations on the user context, the demo error when either flag is
true, then password verification, then token issuance with an explicit
30-minute delta. -/
def login (flags : FlagOracle) (db : UsersDb) (username password : String) (now : Int) :
    LoginResult × List AuthEvent :=
  match get_user_by_email db username with
  | none => (.noSuchUser, [])
  | some (uid, u) =>
    let ctx := LDContext.user uid u.email
    let new_auth := flags "release-new-auth" ctx
    let disaster_mode := flags "enable-disaster-mode" ctx
    let evs := [AuthEvent.flagEval "release-new-auth" ctx,
                AuthEvent.flagEval "enable-disaster-mode" ctx]
    if new_auth || disaster_mode then
      (.injected, evs ++ [AuthEvent.track "http.500" ctx])
    else
      let evs2 := evs ++ [AuthEvent.passwordVerify password u.hashed_password]
      if verify_password password u.hashed_password then
        (.success (create_access_token (some uid) (some (30 * 60)) now), evs2)
      else
        (.badPassword, evs2)

/-- `get_current_user_id` from src/backend/app/auth.py, given the bearer
token extracted by the framework: none stands for the 401 it raises. -/
def get_current_user_id (t : Jwt) (now : Int) : Option String :=
  verify_token t now

/-- The `get_me` handler (src/backend/app/main.py, GET /api/me). -/
def get_me (db : UsersDb) (t : Jwt) (now : Int) : MeResult :=
  match get_current_user_id t now with
  | none => .unauthorized
  | some uid =>
    match dbLookup db uid with
    | none => .notFound
    | some u => .ok (userResponseDict uid u.email u.fullName u.username u.website)

/-- The `update_me` handler (src/backend/app/main.py, PATCH /api/me). -/
def update_me (db : UsersDb) (t : Jwt) (now : Int)
    (upd : List (UpdKey × Option String)) : MeResult × UsersDb :=
  match get_current_user_id t now with
  | none => (.unauthorized, db)
  | some uid =>
    match update_user db uid upd with
    | none => (.notFound, db)
    | some (r, db2) =>
      (.ok (userResponseDict uid r.2.email r.2.fullName r.2.username r.2.website), db2)

/-! ## Helper lemmas -/

theorem updStep_preserves_email_hash (u : StoredUser) (kv : UpdKey × Option String) :
    (updStep u kv).email = u.email ∧
    (updStep u kv).hashed_password = u.hashed_password := by
  obtain ⟨k, v⟩ := kv
  cases v with
  | none => exact ⟨rfl, rfl⟩
  | some w => cases k <;> simp [updStep, setField]

theorem applyUpdates_preserves_email_hash (u : StoredUser)
    (upd : List (UpdKey × Option String)) :
    (applyUpdates u upd).email = u.email ∧
    (applyUpdates u upd).hashed_password = u.hashed_password := by
  induction upd generalizing u with
  | nil => exact ⟨rfl, rfl⟩
  | cons kv rest ih =>
    have hstep := updStep_preserves_email_hash u kv
    have htail := ih (updStep u kv)
    exact ⟨htail.1.trans hstep.1, htail.2.trans hstep.2⟩

theorem get_user_by_email_cons (k : String) (u : StoredUser) (rest : UsersDb)
    (email : String) :
    get_user_by_email ((k, u) :: rest) email =
      if u.email = email then some (k, u) else get_user_by_email rest email := rfl

theorem get_user_by_email_append_of_none (db l : UsersDb) (email : String)
    (h : get_user_by_email db email = none) :
    get_user_by_email (db ++ l) email = get_user_by_email l email := by
  induction db with
  | nil => rfl
  | cons p rest ih =>
    obtain ⟨k, u⟩ := p
    rw [get_user_by_email_cons] at h
    rw [List.cons_append, get_user_by_email_cons]
    by_cases he : u.email = email
    · rw [if_pos he] at h
      exact Option.noConfusion h
    · rw [if_neg he] at h ⊢
      exact ih h

theorem dbInsert_of_fresh (db : UsersDb) (uid : String) (u : StoredUser)
    (h : dbLookup db uid = none) :
    dbInsert db uid u = db ++ [(uid, u)] := by
  unfold dbInsert
  rw [h]

theorem dbLookup_map_replace (db : UsersDb) (uid : String) (u : StoredUser)
    (id2 : String) (hne : id2 ≠ uid) :
    dbLookup (db.map (fun p => if p.1 = uid then (uid, u) else p)) id2 =
      dbLookup db id2 := by
  induction db with
  | nil => rfl
  | cons p rest ih =>
    obtain ⟨k, w⟩ := p
    simp only [List.map_cons]
    by_cases hk : k = uid
    · rw [show (if (k, w).1 = uid then (uid, u) else (k, w)) = (uid, u) from if_pos hk]
      have h1 : ¬ (uid = id2) := fun he => hne he.symm
      have h2 : ¬ (k = id2) := by
        rw [hk]
        exact h1
      simp [dbLookup, h1, h2, ih]
    · rw [show (if (k, w).1 = uid then (uid, u) else (k, w)) = (k, w) from if_neg hk]
      by_cases h2 : k = id2
      · simp [dbLookup, h2]
      · simp [dbLookup, h2, ih]

theorem dbLookup_append_single (db : UsersDb) (uid : String) (u : StoredUser)
    (id2 : String) (hne : id2 ≠ uid) :
    dbLookup (db ++ [(uid, u)]) id2 = dbLookup db id2 := by
  induction db with
  | nil =>
    have h1 : ¬ (uid = id2) := fun he => hne he.symm
    simp [dbLookup, h1]
  | cons p rest ih =>
    obtain ⟨k, w⟩ := p
    by_cases h2 : k = id2
    · simp [dbLookup, h2]
    · simp [dbLookup, h2, ih]

theorem dbLookup_dbInsert_other (db : UsersDb) (uid : String) (u : StoredUser)
    (id2 : String) (hne : id2 ≠ uid) :
    dbLookup (dbInsert db uid u) id2 = dbLookup db id2 := by
  unfold dbInsert
  cases h : dbLookup db uid with
  | some w => exact dbLookup_map_replace db uid u id2 hne
  | none => exact dbLookup_append_single db uid u id2 hne

theorem userResponseDict_keys (id email : String)
    (fullName username website : Option String) :
    (userResponseDict id email fullName username website).map Prod.fst =
      ["id", "email", "fullName", "username", "website"] := rfl

/-! ## Claim theorems -/

/-- Claim C2: for every subjectId and every positive ttl,
verify_token (create_access_token {sub: subjectId} ttl) evaluated
immediately after issuance (current time unchanged) returns subjectId. -/
theorem verify_of_create_access_token (subjectId : String) (ttl now : Int)
    (hpos : 0 < ttl) :
    verify_token (create_access_token (some subjectId) (some ttl) now) now =
      some subjectId := by
  have hne : ¬ (ttl = 0) := by omega
  have hexp : ¬ (now + ttl < now) := by omega
  simp [verify_token, create_access_token, jwt_encode, jwt_decode, hne, hexp]

theorem verify_of_create_access_token_witness :
    verify_token (create_access_token (some "user-1") (some 60) 1000) 1000 =
      some "user-1" :=
  verify_of_create_access_token "user-1" 60 1000 (by norm_num)

/-- Claim C3: verify_token is total (its codomain is Option, never an
exception) and returns none on every failure mode — a signature that is
not the fixed key over the payload (covering tampered payloads), a token
signed with a different key, an expiry earlier than the current time, and
a payload lacking a subject claim — and the only outcomes are some
subjectId or none. -/
theorem verify_token_normalizes_failures (t : Jwt) (now : Int) :
    (t.sig ≠ (SECRET_KEY, t.payload) → verify_token t now = none) ∧
    (∀ k : String, k ≠ SECRET_KEY → verify_token (jwt_encode t.payload k) now = none) ∧
    (t.payload.exp < now → verify_token t now = none) ∧
    (t.payload.sub = none → verify_token t now = none) ∧
    (verify_token t now = none ∨ ∃ s, verify_token t now = some s) := by
  refine ⟨?_, ?_, ?_, ?_, ?_⟩
  · intro h
    simp [verify_token, jwt_decode, h]
  · intro k hk
    simp [verify_token, jwt_encode, jwt_decode, hk]
  · intro h
    by_cases hs : t.sig = (SECRET_KEY, t.payload)
    · simp [verify_token, jwt_decode, hs, h]
    · simp [verify_token, jwt_decode, hs]
  · intro h
    by_cases hs : t.sig = (SECRET_KEY, t.payload)
    · by_cases he : t.payload.exp < now
      · simp [verify_token, jwt_decode, hs, he]
      · simp [verify_token, jwt_decode, hs, he, h]
    · simp [verify_token, jwt_decode, hs]
  · cases hv : verify_token t now with
    | none => exact Or.inl rfl
    | some s => exact Or.inr ⟨s, rfl⟩

theorem verify_token_normalizes_failures_witness :
    verify_token
      { payload := { sub := some "u", exp := 100 },
        sig := ("wrong-key", { sub := some "u", exp := 100 }) } 0 = none :=
  (verify_token_normalizes_failures
      { payload := { sub := some "u", exp := 100 },
        sig := ("wrong-key", { sub := some "u", exp := 100 }) } 0).1 (by decide)

/-- Claim C7: every token issued by a successful login has expiry equal
to issuance time plus exactly the fixed 30-minute TTL, and
create_access_token uses the same 30-minute default when no explicit
lifetime is supplied. -/
theorem token_ttl_thirty_minutes (flags : FlagOracle) (db : UsersDb)
    (username password : String) (now : Int) :
    (∀ t : Jwt, (login flags db username password now).1 = LoginResult.success t →
       t.payload.exp = now + ACCESS_TOKEN_EXPIRE_MINUTES * 60) ∧
    (∀ sub : Option String,
       (create_access_token sub none now).payload.exp =
         now + ACCESS_TOKEN_EXPIRE_MINUTES * 60) := by
  constructor
  · intro t ht
    unfold login at ht
    cases hlk : get_user_by_email db username with
    | none =>
      rw [hlk] at ht
      exact LoginResult.noConfusion ht
    | some p =>
      obtain ⟨uid, u⟩ := p
      rw [hlk] at ht
      simp only at ht
      split at ht
      · exact LoginResult.noConfusion ht
      · split at ht
        · have hteq : create_access_token (some uid) (some (30 * 60)) now = t :=
            LoginResult.success.inj ht
          rw [← hteq]
          simp [create_access_token, jwt_encode, ACCESS_TOKEN_EXPIRE_MINUTES]
        · exact LoginResult.noConfusion ht
  · intro sub
    simp [create_access_token, jwt_encode]

theorem token_ttl_thirty_minutes_witness :
    (create_access_token (some "u1") (some (30 * 60)) 0).payload.exp =
      0 + ACCESS_TOKEN_EXPIRE_MINUTES * 60 :=
  (token_ttl_thirty_minutes (fun _ _ => false)
      [("u1", { email := "b@x.com", hashed_password := pwd_hash "pw",
                fullName := none, username := none, website := none })]
      "b@x.com" "pw" 0).1
    (create_access_token (some "u1") (some (30 * 60)) 0) rfl

/-- Claim C6: for a stored id, updating fullName changes only that field
(the resulting record is the old one with fullName replaced, and every
other id in the store is untouched); updating email leaves the stored
record entirely unchanged; email and the password hash are excluded from
mutation by every update; and update_user returns none exactly when the
id is not in the store. -/
theorem update_user_frame (db : UsersDb) (uid : String) (u : StoredUser)
    (hmem : dbLookup db uid = some u) (x e : String)
    (upd : List (UpdKey × Option String)) :
    (update_user db uid [(UpdKey.kfullName, some x)] =
       some ((uid, { u with fullName := some x }),
             dbInsert db uid { u with fullName := some x })) ∧
    (∀ id2 : String, id2 ≠ uid →
       dbLookup (dbInsert db uid { u with fullName := some x }) id2 =
         dbLookup db id2) ∧
    (update_user db uid [(UpdKey.kemail, some e)] =
       some ((uid, u), dbInsert db uid u)) ∧
    ((applyUpdates u upd).email = u.email ∧
     (applyUpdates u upd).hashed_password = u.hashed_password) ∧
    (∀ (db2 : UsersDb) (uid2 : String),
       update_user db2 uid2 upd = none ↔ dbLookup db2 uid2 = none) := by
  refine ⟨?_, ?_, ?_, applyUpdates_preserves_email_hash u upd, ?_⟩
  · unfold update_user
    rw [hmem]
    simp [applyUpdates, updStep, setField]
  · intro id2 hne
    exact dbLookup_dbInsert_other db uid _ id2 hne
  · unfold update_user
    rw [hmem]
    simp [applyUpdates, updStep]
  · intro db2 uid2
    unfold update_user
    cases h : dbLookup db2 uid2 with
    | none => simp
    | some w => simp

theorem update_user_frame_witness :
    update_user
        [("u1", { email := "a@x.com", hashed_password := pwd_hash "pw",
                  fullName := none, username := none, website := none })]
        "u1" [(UpdKey.kfullName, some "X")] =
      some (("u1", { email := "a@x.com", hashed_password := pwd_hash "pw",
                     fullName := some "X", username := none, website := none }),
            dbInsert
              [("u1", { email := "a@x.com", hashed_password := pwd_hash "pw",
                        fullName := none, username := none, website := none })]
              "u1"
              { email := "a@x.com", hashed_password := pwd_hash "pw",
                fullName := some "X", username := none, website := none }) :=
  (update_user_frame
      [("u1", { email := "a@x.com", hashed_password := pwd_hash "pw",
                fullName := none, username := none, website := none })]
      "u1"
      { email := "a@x.com", hashed_password := pwd_hash "pw",
        fullName := none, username := none, website := none }
      rfl "X" "new" [(UpdKey.kusername, some "z")]).1

/-- Claim C5: a login request whose email matches no stored record yields
the 401 no-such-user rejection regardless of the fault-injection flags,
and the flag oracle is never consulted. -/
theorem login_no_such_user (flags : FlagOracle) (db : UsersDb)
    (username password : String) (now : Int)
    (h : get_user_by_email db username = none) :
    (login flags db username password now).1 = LoginResult.noSuchUser ∧
    loginStatus (login flags db username password now).1 = 401 ∧
    ∀ (f : String) (ctx : LDContext),
      AuthEvent.flagEval f ctx ∉ (login flags db username password now).2 := by
  unfold login
  rw [h]
  exact ⟨rfl, rfl, fun f ctx hmem => by simp at hmem⟩

theorem login_no_such_user_witness :
    (login (fun _ _ => true) [] "ghost@x.com" "pw" 0).1 = LoginResult.noSuchUser ∧
    loginStatus (login (fun _ _ => true) [] "ghost@x.com" "pw" 0).1 = 401 ∧
    ∀ (f : String) (ctx : LDContext),
      AuthEvent.flagEval f ctx ∉ (login (fun _ _ => true) [] "ghost@x.com" "pw" 0).2 :=
  login_no_such_user (fun _ _ => true) [] "ghost@x.com" "pw" 0 rfl

/-- Claim C8: a signup request whose email already belongs to a stored
record fails with the 400 duplicate-email conflict and leaves the user
store unchanged. -/
theorem signup_duplicate_conflict (flags : FlagOracle) (db : UsersDb)
    (email password freshId : String) (p : String × StoredUser)
    (h : get_user_by_email db email = some p) :
    (signup flags db email password freshId).1 = SignupResult.conflict ∧
    signupStatus (signup flags db email password freshId).1 = 400 ∧
    (signup flags db email password freshId).2.1 = db := by
  unfold signup
  rw [h]
  exact ⟨rfl, rfl, rfl⟩

theorem signup_duplicate_conflict_witness :
    (signup (fun _ _ => false)
        [("u1", { email := "a@x.com", hashed_password := pwd_hash "pw",
                  fullName := none, username := none, website := none })]
        "a@x.com" "pw2" "id-2").1 = SignupResult.conflict ∧
    signupStatus
        (signup (fun _ _ => false)
            [("u1", { email := "a@x.com", hashed_password := pwd_hash "pw",
                      fullName := none, username := none, website := none })]
            "a@x.com" "pw2" "id-2").1 = 400 ∧
    (signup (fun _ _ => false)
        [("u1", { email := "a@x.com", hashed_password := pwd_hash "pw",
                  fullName := none, username := none, website := none })]
        "a@x.com" "pw2" "id-2").2.1 =
      [("u1", { email := "a@x.com", hashed_password := pwd_hash "pw",
                fullName := none, username := none, website := none })] :=
  signup_duplicate_conflict (fun _ _ => false)
    [("u1", { email := "a@x.com", hashed_password := pwd_hash "pw",
              fullName := none, username := none, website := none })]
    "a@x.com" "pw2" "id-2"
    ("u1", { email := "a@x.com", hashed_password := pwd_hash "pw",
             fullName := none, username := none, website := none })
    rfl

/-- Claim C10: on the signup path the duplicate-email check precedes the
fault-injection check: a duplicate email yields the 400 conflict for
every flag oracle (in particular with both flags true) and the flag
oracle is never consulted. -/
theorem signup_duplicate_precedes_fault (flags : FlagOracle) (db : UsersDb)
    (email password freshId : String) (p : String × StoredUser)
    (h : get_user_by_email db email = some p) :
    (signup flags db email password freshId).1 = SignupResult.conflict ∧
    ∀ (f : String) (ctx : LDContext),
      AuthEvent.flagEval f ctx ∉ (signup flags db email password freshId).2.2 := by
  unfold signup
  rw [h]
  exact ⟨rfl, fun f ctx hmem => by simp at hmem⟩

theorem signup_duplicate_precedes_fault_witness :
    (signup (fun _ _ => true)
        [("u1", { email := "a@x.com", hashed_password := pwd_hash "pw",
                  fullName := none, username := none, website := none })]
        "a@x.com" "pw2" "id-2").1 = SignupResult.conflict ∧
    ∀ (f : String) (ctx : LDContext),
      AuthEvent.flagEval f ctx ∉
        (signup (fun _ _ => true)
            [("u1", { email := "a@x.com", hashed_password := pwd_hash "pw",
                      fullName := none, username := none, website := none })]
            "a@x.com" "pw2" "id-2").2.2 :=
  signup_duplicate_precedes_fault (fun _ _ => true)
    [("u1", { email := "a@x.com", hashed_password := pwd_hash "pw",
              fullName := none, username := none, website := none })]
    "a@x.com" "pw2" "id-2"
    ("u1", { email := "a@x.com", hashed_password := pwd_hash "pw",
             fullName := none, username := none, website := none })
    rfl

/-- Claim C4: on the login path with the user found, when either
fault-injection flag evaluates true for the user context the request
terminates with the injected 500 before password verification — no
verify_password call appears in the trace — and when both flags evaluate
false, password verification proceeds. -/
theorem login_fault_precedes_password_check (flags : FlagOracle) (db : UsersDb)
    (username password : String) (now : Int) (uid : String) (u : StoredUser)
    (hfound : get_user_by_email db username = some (uid, u)) :
    ((flags "release-new-auth" (LDContext.user uid u.email) = true ∨
      flags "enable-disaster-mode" (LDContext.user uid u.email) = true) →
      (login flags db username password now).1 = LoginResult.injected ∧
      loginStatus (login flags db username password now).1 = 500 ∧
      ∀ pl hs : String,
        AuthEvent.passwordVerify pl hs ∉ (login flags db username password now).2) ∧
    ((flags "release-new-auth" (LDContext.user uid u.email) = false ∧
      flags "enable-disaster-mode" (LDContext.user uid u.email) = false) →
      AuthEvent.passwordVerify password u.hashed_password ∈
        (login flags db username password now).2) := by
  constructor
  · intro hf
    have hcond : (flags "release-new-auth" (LDContext.user uid u.email) ||
                  flags "enable-disaster-mode" (LDContext.user uid u.email)) = true := by
      rcases hf with h | h <;> simp [h]
    simp [login, hfound, hcond, loginStatus]
  · intro hf
    simp only [login, hfound, hf.1, hf.2, Bool.or_self, Bool.false_eq_true, if_false]
    by_cases hv : verify_password password u.hashed_password
    · simp [hv]
    · simp [hv]

theorem login_fault_precedes_password_check_witness :
    (login (fun _ _ => true)
        [("u1", { email := "a@x.com", hashed_password := pwd_hash "pw",
                  fullName := none, username := none, website := none })]
        "a@x.com" "wrong-password" 0).1 = LoginResult.injected ∧
    loginStatus
        (login (fun _ _ => true)
            [("u1", { email := "a@x.com", hashed_password := pwd_hash "pw",
                      fullName := none, username := none, website := none })]
            "a@x.com" "wrong-password" 0).1 = 500 ∧
    ∀ pl hs : String,
      AuthEvent.passwordVerify pl hs ∉
        (login (fun _ _ => true)
            [("u1", { email := "a@x.com", hashed_password := pwd_hash "pw",
                      fullName := none, username := none, website := none })]
            "a@x.com" "wrong-password" 0).2 :=
  (login_fault_precedes_password_check (fun _ _ => true)
      [("u1", { email := "a@x.com", hashed_password := pwd_hash "pw",
                fullName := none, username := none, website := none })]
      "a@x.com" "wrong-password" 0 "u1"
      { email := "a@x.com", hashed_password := pwd_hash "pw",
        fullName := none, username := none, website := none }
      rfl).1 (Or.inl rfl)

/-- Claim C9: every successful response body of signup, GET /me and
PATCH /me consists of exactly the fields id, email, fullName, username
and website — the stored password hash is never among them. -/
theorem success_responses_field_keys (flags : FlagOracle) (db : UsersDb)
    (email password freshId : String) (t : Jwt) (now : Int)
    (upd : List (UpdKey × Option String)) (d : List (String × Option String)) :
    ((signup flags db email password freshId).1 = SignupResult.ok d →
       d.map Prod.fst = ["id", "email", "fullName", "username", "website"]) ∧
    (get_me db t now = MeResult.ok d →
       d.map Prod.fst = ["id", "email", "fullName", "username", "website"]) ∧
    ((update_me db t now upd).1 = MeResult.ok d →
       d.map Prod.fst = ["id", "email", "fullName", "username", "website"]) := by
  refine ⟨?_, ?_, ?_⟩
  · intro h
    unfold signup at h
    cases hlk : get_user_by_email db email with
    | some p =>
      rw [hlk] at h
      exact SignupResult.noConfusion h
    | none =>
      rw [hlk] at h
      simp only at h
      split at h
      · exact SignupResult.noConfusion h
      · have hd := SignupResult.ok.inj h
        rw [← hd]
        exact userResponseDict_keys _ _ _ _ _
  · intro h
    unfold get_me at h
    cases hv : get_current_user_id t now with
    | none =>
      rw [hv] at h
      exact MeResult.noConfusion h
    | some uid =>
      rw [hv] at h
      simp only at h
      cases hl : dbLookup db uid with
      | none =>
        rw [hl] at h
        exact MeResult.noConfusion h
      | some u =>
        rw [hl] at h
        have hd := MeResult.ok.inj h
        rw [← hd]
        exact userResponseDict_keys _ _ _ _ _
  · intro h
    unfold update_me at h
    cases hv : get_current_user_id t now with
    | none =>
      rw [hv] at h
      exact MeResult.noConfusion h
    | some uid =>
      rw [hv] at h
      simp only at h
      cases hu : update_user db uid upd with
      | none =>
        rw [hu] at h
        exact MeResult.noConfusion h
      | some q =>
        obtain ⟨r, db2⟩ := q
        rw [hu] at h
        have hd := MeResult.ok.inj h
        rw [← hd]
        exact userResponseDict_keys _ _ _ _ _

theorem success_responses_field_keys_witness :
    (userResponseDict "id-1" "a@x.com" none none none).map Prod.fst =
      ["id", "email", "fullName", "username", "website"] :=
  (success_responses_field_keys (fun _ _ => false) [] "a@x.com" "pw" "id-1"
      { payload := { sub := none, exp := 0 },
        sig := ("", { sub := none, exp := 0 }) } 0 []
      (userResponseDict "id-1" "a@x.com" none none none)).1 rfl

/-- Claim C1: for every email not already in the store and every
password, with all fault-injection flag evaluations false, signup
followed by login with the same credentials yields a 200 response
carrying a token whose verification returns the id assigned by signup. -/
theorem signup_then_login_roundtrip (flags : FlagOracle) (db : UsersDb)
    (email password freshId : String) (now : Int)
    (hnew : get_user_by_email db email = none)
    (hfresh : dbLookup db freshId = none)
    (ha1 : flags "release-new-auth" LDContext.anonymous = false)
    (ha2 : flags "enable-disaster-mode" LDContext.anonymous = false)
    (hu1 : flags "release-new-auth" (LDContext.user freshId email) = false)
    (hu2 : flags "enable-disaster-mode" (LDContext.user freshId email) = false) :
    ∃ t : Jwt,
      (signup flags db email password freshId).1 =
        SignupResult.ok (userResponseDict freshId email none none none) ∧
      (login flags (signup flags db email password freshId).2.1
          email password now).1 = LoginResult.success t ∧
      loginStatus (LoginResult.success t) = 200 ∧
      verify_token t now = some freshId := by
  have hdb2 : (signup flags db email password freshId).2.1 =
      db ++ [(freshId, { email := email, hashed_password := pwd_hash password,
                         fullName := none, username := none, website := none })] := by
    unfold signup
    rw [hnew]
    simp only [ha1, ha2, Bool.or_self, Bool.false_eq_true, if_false]
    simp only [create_user]
    exact dbInsert_of_fresh db freshId _ hfresh
  have hlk : get_user_by_email
      (db ++ [(freshId, { email := email, hashed_password := pwd_hash password,
                          fullName := none, username := none, website := none })])
      email =
      some (freshId, { email := email, hashed_password := pwd_hash password,
                       fullName := none, username := none, website := none }) := by
    rw [get_user_by_email_append_of_none db _ email hnew]
    simp [get_user_by_email]
  refine ⟨create_access_token (some freshId) (some (30 * 60)) now, ?_, ?_, rfl, ?_⟩
  · unfold signup
    rw [hnew]
    simp only [ha1, ha2, Bool.or_self, Bool.false_eq_true, if_false]
    rfl
  · rw [hdb2]
    unfold login
    rw [hlk]
    simp only [hu1, hu2, Bool.or_self, Bool.false_eq_true, if_false]
    simp [verify_password]
  · have hexp : ¬ (now + 30 * 60 < now) := by omega
    simp [verify_token, create_access_token, jwt_encode, jwt_decode, hexp]

theorem signup_then_login_roundtrip_witness :
    ∃ t : Jwt,
      (signup (fun _ _ => false) [] "a@x.com" "pw" "id-1").1 =
        SignupResult.ok (userResponseDict "id-1" "a@x.com" none none none) ∧
      (login (fun _ _ => false)
          (signup (fun _ _ => false) [] "a@x.com" "pw" "id-1").2.1
          "a@x.com" "pw" 0).1 = LoginResult.success t ∧
      loginStatus (LoginResult.success t) = 200 ∧
      verify_token t 0 = some "id-1" :=
  signup_then_login_roundtrip (fun _ _ => false) [] "a@x.com" "pw" "id-1" 0
    rfl rfl rfl rfl rfl rfl

end DisasterApp
